import Mathlib

/-!
Shallow embedding of the particle-field animators and the contact-form logic
of `script.js` (personal-portfolio front end).

Numeric conventions: JavaScript numbers are modelled as exact rationals `ℚ`
(decimal literals of the source become the corresponding rationals:
`0.8 = 4/5`, `0.5 = 1/2`, `0.2 = 1/5`, `0.6 = 3/5`, `0.3 = 3/10`).
`Math.random()` is modelled as an injected stream `r : ℕ → ℚ` of values in
`[0, 1)`, consumed left to right in source order; each consumer carries the
index of the next unused value, so determinism and independence of draws are
explicit.  `Math.sqrt` is modelled by `Real.sqrt` on the rational operand
cast to `ℝ`.
-/

namespace Portfolio

/-- A particle of the nebula background: `class Node` in `initNebulaBackground`
(script.js).  Fields are exactly those the constructor/`reset` assigns. -/
structure Node where
  x : ℚ
  y : ℚ
  size : ℚ
  speedX : ℚ
  speedY : ℚ
  opacity : ℚ
deriving DecidableEq

/-- `Node.reset` (script.js lines 398-407): six successive `Math.random()`
draws, starting at stream index `k`, assigned in source order:
`x = random*width`, `y = random*height`, `size = random*2+1`,
`speedX = (random-0.5)*0.8`, `speedY = (random-0.5)*0.8`,
`opacity = random*0.5+0.2`. -/
def resetNode (w h : ℚ) (r : ℕ → ℚ) (k : ℕ) : Node :=
  { x := r k * w
    y := r (k + 1) * h
    size := r (k + 2) * 2 + 1
    speedX := (r (k + 3) - 1 / 2) * (4 / 5)
    speedY := (r (k + 4) - 1 / 2) * (4 / 5)
    opacity := r (k + 5) * (1 / 2) + 1 / 5 }

/-- The exit condition of `Node.update` (script.js line 411):
`x < 0 || x > width || y < 0 || y > height`. -/
def outOfBox (w h x y : ℚ) : Prop :=
  x < 0 ∨ x > w ∨ y < 0 ∨ y > h

instance (w h x y : ℚ) : Decidable (outOfBox w h x y) :=
  inferInstanceAs (Decidable (x < 0 ∨ x > w ∨ y < 0 ∨ y > h))

/-- `Node.update` (script.js lines 408-412): advance the position by the
velocity; if `x < 0 || x > width || y < 0 || y > height` then `reset()`.
Returns the updated node together with the next unused random index. -/
def updateNode (w h : ℚ) (r : ℕ → ℚ) (k : ℕ) (n : Node) : Node × ℕ :=
  if outOfBox w h (n.x + n.speedX) (n.y + n.speedY) then
    (resetNode w h r k, k + 6)
  else
    ({ n with x := n.x + n.speedX, y := n.y + n.speedY }, k)

/-- One `animate` pass over the node list as far as state mutation is
concerned: every node undergoes its `update()` step, in list order, threading
the random stream. -/
def tickNodes (w h : ℚ) (r : ℕ → ℚ) : List Node → ℕ → List Node × ℕ
  | [], k => ([], k)
  | n :: ns, k =>
    let p := updateNode w h r k n
    let q := tickNodes w h r ns p.2
    (p.1 :: q.1, q.2)

/-- Iterated animation frames: `runTicks m` performs `m` successive
`tickNodes` passes. -/
def runTicks (w h : ℚ) (r : ℕ → ℚ) : ℕ → List Node × ℕ → List Node × ℕ
  | 0, s => s
  | m + 1, s => runTicks w h r m (tickNodes w h r s.1 s.2)

/-- `const nodeCount = window.innerWidth < 800 ? 30 : 60` (script.js
line 421). -/
def nodeCount (w : ℚ) : ℕ := if w < 800 then 30 else 60

/-- `Array.from({length: nodeCount}, () => new Node())` (script.js line 422):
each constructed node performs a `reset()`, consuming six random values. -/
def initNodes (w h : ℚ) (r : ℕ → ℚ) (k : ℕ) : List Node :=
  (List.range (nodeCount w)).map fun i => resetNode w h r (k + 6 * i)

/-- The nebula animator's state: the closure variables `width`, `height` and
the `nodes` array. -/
structure Field where
  width : ℚ
  height : ℚ
  nodes : List Node

/-- `resize` (script.js lines 388-391): overwrite the stored dimensions with
the current viewport dimensions; the node array is untouched. -/
def resizeField (f : Field) (w h : ℚ) : Field :=
  { f with width := w, height := h }

/-- Construction of the node array (script.js lines 421-422) against the
currently stored dimensions. -/
def initField (f : Field) (r : ℕ → ℚ) : Field :=
  { f with nodes := initNodes f.width f.height r 0 }

/-- Squared Euclidean distance `dx*dx + dy*dy` between two planar points,
as computed in `animate` (script.js lines 443-445). -/
def sqDist (p q : ℚ × ℚ) : ℚ :=
  (p.1 - q.1) * (p.1 - q.1) + (p.2 - q.2) * (p.2 - q.2)

/-- The connection test of `animate` (script.js lines 443-447):
`dist = Math.sqrt(dx*dx + dy*dy)`, and a line is drawn iff `dist < 150`. -/
def nebulaLineTest (p q : ℚ × ℚ) : Prop :=
  Real.sqrt ((sqDist p q : ℚ) : ℝ) < 150

/-- The index pairs visited by the nested connection loops of `animate`
(script.js lines 431-448): `for (i = 0; i < n; i++) for (j = i+1; j < n; j++)`. -/
def framePairs (n : ℕ) : List (ℕ × ℕ) :=
  (List.range n).flatMap fun i =>
    (List.range' (i + 1) (n - (i + 1))).map fun j => (i, j)

/-- The quick rejection of `init3DGlobe.draw` (script.js line 360):
`if (Math.abs(dx) > radius*0.6) continue`. -/
def globeSkip (radius dx : ℚ) : Prop :=
  |dx| > radius * (3 / 5)

/-- The squared-distance test of `init3DGlobe.draw` (script.js line 362):
`(dx*dx + dy*dy + dz*dz) < (radius*radius * 0.3)`. -/
def globeSqTest (radius dx dy dz : ℚ) : Prop :=
  dx * dx + dy * dy + dz * dz < radius * radius * (3 / 10)

/-- A globe pair is connected when it survives the quick rejection and passes
the squared-distance test (script.js lines 360-362). -/
def globeConnects (radius dx dy dz : ℚ) : Prop :=
  ¬globeSkip radius dx ∧ globeSqTest radius dx dy dz

/-- The unoptimized comparison: Euclidean distance `sqrt(dx²+dy²+dz²)`
against the threshold `sqrt(radius²·0.3)` implied by the squared test. -/
def globeEuclidConnects (radius dx dy dz : ℚ) : Prop :=
  Real.sqrt ((dx : ℝ) * (dx : ℝ) + (dy : ℝ) * (dy : ℝ) + (dz : ℝ) * (dz : ℝ)) <
    Real.sqrt ((radius : ℝ) * (radius : ℝ) * (3 / 10))

/-- Inline style and text of the send button. -/
structure BtnStyle where
  innerText : String
  pointerEvents : String
  color : String
deriving DecidableEq

/-- Contents of the contact form's two inputs. -/
structure FormState where
  email : String
  message : String
deriving DecidableEq

/-- The page state `sendMessage` reads and mutates. -/
structure PageState where
  btn : BtnStyle
  form : FormState
deriving DecidableEq

/-- Result of the awaited `fetch`: a response with `ok`, a response with
`!ok` (thrown and caught as `"Transmission failed"`), or a network error
caught by the same handler. -/
inductive FetchOutcome where
  | ok
  | httpError
  | netError
deriving DecidableEq

/-- An outbound request as issued by `sendMessage`: the fixed endpoint,
method, and the three JSON body fields. -/
structure Request where
  url : String
  method : String
  email : String
  message : String
  subject : String
deriving DecidableEq

/-- Observable trace of one `sendMessage` invocation: the requests issued,
the button state entered before the request (`none` on early return), the
button/form state once the try/catch settles, the `setTimeout` delay
registered by the `finally` block (`none` if no timer was set), and the
button/form state after that timer fires. -/
structure SendTrace where
  requests : List Request
  sendingBtn : Option BtnStyle
  settledBtn : BtnStyle
  settledForm : FormState
  revertDelay : Option ℕ
  finalBtn : BtnStyle
  finalForm : FormState
deriving DecidableEq

/-- `sendMessage` (script.js lines 565-611), as a function of the page state
and the fetch outcome.  `!email || !message` on strings is the emptiness
check; `form.reset()` restores the empty default values; the `finally` block
registers a 3000 ms timer restoring `originalText`, `pointerEvents = 'all'`
and `color = ''`. -/
def sendMessage (st : PageState) (outcome : FetchOutcome) : SendTrace :=
  if st.form.email = "" ∨ st.form.message = "" then
    { requests := []
      sendingBtn := none
      settledBtn := st.btn
      settledForm := st.form
      revertDelay := none
      finalBtn := st.btn
      finalForm := st.form }
  else
    let originalText := st.btn.innerText
    let sending : BtnStyle :=
      { st.btn with innerText := "[ TRANSMITTING... ]", pointerEvents := "none" }
    let req : Request :=
      { url := "https://formsubmit.co/ajax/nithish1436m@gmail.com"
        method := "POST"
        email := st.form.email
        message := st.form.message
        subject := "New Transmission from NM. Portfolio!" }
    let settled : BtnStyle × FormState :=
      match outcome with
      | .ok =>
        ({ sending with
            innerText := "[ TRANSMISSION SUCCESS ]"
            color := "var(--highlight-color)" },
          { email := "", message := "" })
      | _ =>
        ({ sending with innerText := "[ FAILED. RETRY? ]", color := "#ff3333" },
          st.form)
    { requests := [req]
      sendingBtn := some sending
      settledBtn := settled.1
      settledForm := settled.2
      revertDelay := some 3000
      finalBtn :=
        { settled.1 with
            innerText := originalText
            pointerEvents := "all"
            color := "" }
      finalForm := settled.2 }

/-- A button is clickable unless its `pointer-events` style is `none`. -/
def clickable (b : BtnStyle) : Prop :=
  b.pointerEvents ≠ "none"

/-- Position lies in the closed box `[0, w] × [0, h]`. -/
def inClosedBox (w h : ℚ) (n : Node) : Prop :=
  0 ≤ n.x ∧ n.x ≤ w ∧ 0 ≤ n.y ∧ n.y ≤ h

/-- C4: `initialize` always succeeds and constructs exactly `density(w)`
particles, where the density is 30 for viewport widths below 800 and 60
otherwise. -/
theorem initField_count :
    ∀ (f : Field) (r : ℕ → ℚ),
      (initField f r).nodes.length = nodeCount f.width ∧
        ∀ w : ℚ, nodeCount w = if w < 800 then 30 else 60 := by
  intro f r
  refine ⟨?_, fun w => rfl⟩
  simp [initField, initNodes]

/-- C6: `resize` updates only the stored width and height, leaves every
existing particle untouched, and a subsequent `initialize` observes the new
dimensions (both for the particle count and for the randomized positions). -/
theorem resizeField_spec :
    ∀ (f : Field) (w h : ℚ) (r : ℕ → ℚ),
      (resizeField f w h).nodes = f.nodes ∧
        (resizeField f w h).width = w ∧
        (resizeField f w h).height = h ∧
        initField (resizeField f w h) r =
          { width := w, height := h, nodes := initNodes w h r 0 } := by
  intro f w h r
  exact ⟨rfl, rfl, rfl, rfl⟩

/-- C10: when the email or the message is empty, `sendMessage` returns
before touching anything: no request is issued, no sending state is entered,
no timer is registered, and button and form are unchanged throughout. -/
theorem sendMessage_empty_noop (st : PageState) (outcome : FetchOutcome)
    (h : st.form.email = "" ∨ st.form.message = "") :
    sendMessage st outcome =
      { requests := []
        sendingBtn := none
        settledBtn := st.btn
        settledForm := st.form
        revertDelay := none
        finalBtn := st.btn
        finalForm := st.form } := by
  simp only [sendMessage, if_pos h]

/-- Witness for `sendMessage_empty_noop` at a concrete page state with an
empty email field. -/
theorem sendMessage_empty_noop_witness :
    sendMessage
        { btn := { innerText := "[ SEND ]", pointerEvents := "", color := "" }
          form := { email := "", message := "hello" } }
        FetchOutcome.ok =
      { requests := []
        sendingBtn := none
        settledBtn := { innerText := "[ SEND ]", pointerEvents := "", color := "" }
        settledForm := { email := "", message := "hello" }
        revertDelay := none
        finalBtn := { innerText := "[ SEND ]", pointerEvents := "", color := "" }
        finalForm := { email := "", message := "hello" } } :=
  sendMessage_empty_noop
    { btn := { innerText := "[ SEND ]", pointerEvents := "", color := "" }
      form := { email := "", message := "hello" } }
    FetchOutcome.ok (Or.inl rfl)

/-- C9: with nonempty email and message, `sendMessage` issues exactly one
JSON POST carrying `{email, message, _subject}`, enters the sending state
before the request, settles to the success state and clears the form exactly
when the response is ok, settles to the failure state with the form intact
on any error, and in every case registers a 3000 ms revert restoring the
original button text, clearing the inline color back to the button's
original (empty) inline color, and making the button clickable again. -/
theorem sendMessage_contract (st : PageState) (outcome : FetchOutcome)
    (he : st.form.email ≠ "") (hm : st.form.message ≠ "")
    (hc : st.btn.color = "") :
    (sendMessage st outcome).requests =
        [{ url := "https://formsubmit.co/ajax/nithish1436m@gmail.com"
           method := "POST"
           email := st.form.email
           message := st.form.message
           subject := "New Transmission from NM. Portfolio!" }] ∧
      (sendMessage st outcome).sendingBtn =
        some { innerText := "[ TRANSMITTING... ]"
               pointerEvents := "none"
               color := st.btn.color } ∧
      (outcome = FetchOutcome.ok →
        (sendMessage st outcome).settledBtn.innerText = "[ TRANSMISSION SUCCESS ]" ∧
          (sendMessage st outcome).settledForm = { email := "", message := "" }) ∧
      (outcome ≠ FetchOutcome.ok →
        (sendMessage st outcome).settledBtn.innerText = "[ FAILED. RETRY? ]" ∧
          (sendMessage st outcome).settledForm = st.form) ∧
      (sendMessage st outcome).revertDelay = some 3000 ∧
      (sendMessage st outcome).finalBtn.innerText = st.btn.innerText ∧
      (sendMessage st outcome).finalBtn.color = st.btn.color ∧
      clickable (sendMessage st outcome).finalBtn := by
  have hcond : ¬(st.form.email = "" ∨ st.form.message = "") := by
    rintro (h | h)
    · exact he h
    · exact hm h
  cases outcome <;>
    simp [sendMessage, if_neg hcond, clickable, hc]

/-- Witness for `sendMessage_contract` at a concrete page state and the ok
outcome. -/
theorem sendMessage_contract_witness :
    (sendMessage
        { btn := { innerText := "[ SEND ]", pointerEvents := "", color := "" }
          form := { email := "a@b.c", message := "hi" } }
        FetchOutcome.ok).revertDelay = some 3000 :=
  (sendMessage_contract
      { btn := { innerText := "[ SEND ]", pointerEvents := "", color := "" }
        form := { email := "a@b.c", message := "hi" } }
      FetchOutcome.ok (by decide) (by decide) rfl).2.2.2.2.1

/-- Every field assigned by `reset` lands in its advertised range:
position in `[0, w) × [0, h)`, speed components in `[-2/5, 2/5)`, a positive
radius in `[1, 3)`, and an opacity in `[1/5, 7/10) ⊆ (0, 1]`. -/
lemma resetNode_fresh (w h : ℚ) (r : ℕ → ℚ) (k : ℕ)
    (Hr : ∀ i, 0 ≤ r i ∧ r i < 1) (Hw : 0 < w) (Hh : 0 < h) :
    0 ≤ (resetNode w h r k).x ∧ (resetNode w h r k).x < w ∧
      0 ≤ (resetNode w h r k).y ∧ (resetNode w h r k).y < h ∧
      -(2 / 5) ≤ (resetNode w h r k).speedX ∧ (resetNode w h r k).speedX < 2 / 5 ∧
      -(2 / 5) ≤ (resetNode w h r k).speedY ∧ (resetNode w h r k).speedY < 2 / 5 ∧
      0 < (resetNode w h r k).size ∧
      0 < (resetNode w h r k).opacity ∧ (resetNode w h r k).opacity ≤ 1 := by
  obtain ⟨h0, h1⟩ := Hr k
  obtain ⟨h2, h3⟩ := Hr (k + 1)
  obtain ⟨h4, h5⟩ := Hr (k + 2)
  obtain ⟨h6, h7⟩ := Hr (k + 3)
  obtain ⟨h8, h9⟩ := Hr (k + 4)
  obtain ⟨h10, h11⟩ := Hr (k + 5)
  simp only [resetNode]
  refine ⟨mul_nonneg h0 Hw.le, ?_, mul_nonneg h2 Hh.le, ?_, ?_, ?_, ?_, ?_, ?_, ?_, ?_⟩ <;>
    nlinarith

/-- A single `update` step leaves the node inside the closed box. -/
lemma updateNode_inClosedBox (w h : ℚ) (r : ℕ → ℚ) (k : ℕ) (n : Node)
    (Hr : ∀ i, 0 ≤ r i ∧ r i < 1) (Hw : 0 < w) (Hh : 0 < h) :
    inClosedBox w h (updateNode w h r k n).1 := by
  unfold updateNode
  by_cases hc : outOfBox w h (n.x + n.speedX) (n.y + n.speedY)
  · rw [if_pos hc]
    obtain ⟨b0, b1, b2, b3, -⟩ := resetNode_fresh w h r k Hr Hw Hh
    exact ⟨b0, b1.le, b2, b3.le⟩
  · rw [if_neg hc]
    unfold outOfBox at hc
    push_neg at hc
    exact ⟨hc.1, hc.2.1, hc.2.2.1, hc.2.2.2⟩

/-- C1 (amended): immediately after each particle's update step within a
tick, and hence for every particle after every tick, the position lies in
the closed box `[0, width] × [0, height]` (not the half-open one: the update
keeps a particle landing exactly on `x = width` or `y = height`). -/
theorem tick_keeps_closed_box (w h : ℚ) (r : ℕ → ℚ)
    (Hr : ∀ i, 0 ≤ r i ∧ r i < 1) (Hw : 0 < w) (Hh : 0 < h) :
    (∀ (k : ℕ) (n : Node), inClosedBox w h (updateNode w h r k n).1) ∧
      ∀ (ns : List Node) (k : ℕ), ∀ n ∈ (tickNodes w h r ns k).1,
        inClosedBox w h n := by
  refine ⟨fun k n => updateNode_inClosedBox w h r k n Hr Hw Hh, fun ns => ?_⟩
  induction ns with
  | nil =>
    intro k n hn
    simp [tickNodes] at hn
  | cons a as ih =>
    intro k n hn
    simp only [tickNodes] at hn
    rcases List.mem_cons.mp hn with rfl | hmem
    · exact updateNode_inClosedBox w h r k a Hr Hw Hh
    · exact ih _ n hmem

/-- Witness for `tick_keeps_closed_box`: a concrete node after one update
step on an 800 × 600 surface. -/
theorem tick_keeps_closed_box_witness :
    inClosedBox 800 600
      (updateNode 800 600 (fun _ => 1 / 2) 0
        { x := 1, y := 2, size := 1, speedX := 0, speedY := 0, opacity := 1 / 2 }).1 :=
  (tick_keeps_closed_box 800 600 (fun _ => 1 / 2)
      (fun _ => by norm_num) (by norm_num) (by norm_num)).1 0
    { x := 1, y := 2, size := 1, speedX := 0, speedY := 0, opacity := 1 / 2 }

/-- C1 counterexample: a particle at `x = 799.8` with `speedX = 0.2` advances
to exactly `x = width = 800`; the update does not reset it (the exit test is
`x > width`, strict), so its position is not in the half-open box
`[0, width) × [0, height)` claimed by the spec. -/
theorem tick_halfopen_box_cex :
    (updateNode 800 600 (fun _ => 1 / 2) 0
        { x := 3999 / 5, y := 1, size := 1, speedX := 1 / 5, speedY := 0,
          opacity := 1 / 2 }).1.x = 800 ∧
      ¬(updateNode 800 600 (fun _ => 1 / 2) 0
          { x := 3999 / 5, y := 1, size := 1, speedX := 1 / 5, speedY := 0,
            opacity := 1 / 2 }).1.x < 800 := by
  constructor <;> norm_num [updateNode, outOfBox]

/-- C5 (amended): each update step first advances the position by the
velocity; exactly when the advanced position leaves the closed box
`[0, width] × [0, height]` (not the half-open one) the particle undergoes a
full reset, drawing six fresh random values: a position uniformly across
`[0, w) × [0, h)`, velocity components in the symmetric range `±0.4`, a
positive radius, and an opacity in `(0, 1]`; otherwise only the position
advances and no random value is consumed. -/
theorem update_reset_on_exit (w h : ℚ) (r : ℕ → ℚ) (k : ℕ) (n : Node)
    (Hr : ∀ i, 0 ≤ r i ∧ r i < 1) (Hw : 0 < w) (Hh : 0 < h) :
    (outOfBox w h (n.x + n.speedX) (n.y + n.speedY) →
      updateNode w h r k n = (resetNode w h r k, k + 6) ∧
        0 ≤ (resetNode w h r k).x ∧ (resetNode w h r k).x < w ∧
        0 ≤ (resetNode w h r k).y ∧ (resetNode w h r k).y < h ∧
        -(2 / 5) ≤ (resetNode w h r k).speedX ∧ (resetNode w h r k).speedX < 2 / 5 ∧
        -(2 / 5) ≤ (resetNode w h r k).speedY ∧ (resetNode w h r k).speedY < 2 / 5 ∧
        0 < (resetNode w h r k).size ∧
        0 < (resetNode w h r k).opacity ∧ (resetNode w h r k).opacity ≤ 1) ∧
      (¬outOfBox w h (n.x + n.speedX) (n.y + n.speedY) →
        updateNode w h r k n =
          ({ n with x := n.x + n.speedX, y := n.y + n.speedY }, k)) := by
  constructor
  · intro hc
    exact ⟨by rw [updateNode, if_pos hc], resetNode_fresh w h r k Hr Hw Hh⟩
  · intro hc
    rw [updateNode, if_neg hc]

/-- Witness for `update_reset_on_exit`: a node advancing to `x = -1` is
reset, consuming six random values. -/
theorem update_reset_on_exit_witness :
    updateNode 800 600 (fun _ => 1 / 2) 0
        { x := 0, y := 0, size := 1, speedX := -1, speedY := 0, opacity := 1 / 2 } =
      (resetNode 800 600 (fun _ => 1 / 2) 0, 0 + 6) :=
  ((update_reset_on_exit 800 600 (fun _ => 1 / 2) 0
        { x := 0, y := 0, size := 1, speedX := -1, speedY := 0, opacity := 1 / 2 }
        (fun _ => by norm_num) (by norm_num) (by norm_num)).1
      (by norm_num [outOfBox])).1

/-- C5 counterexample: a particle advancing to exactly `x = width = 800` has
left the half-open box `[0, width) × [0, height)` the spec uses as the reset
trigger, yet `update` does not reset it: no random value is consumed, the
velocity and radius are kept, and the result differs from the freshly reset
node. -/
theorem update_reset_halfopen_cex :
    ¬(updateNode 800 600 (fun _ => 1 / 2) 0
          { x := 3999 / 5, y := 2, size := 1, speedX := 1 / 5, speedY := 0,
            opacity := 1 / 2 }).1.x < 800 ∧
      (updateNode 800 600 (fun _ => 1 / 2) 0
          { x := 3999 / 5, y := 2, size := 1, speedX := 1 / 5, speedY := 0,
            opacity := 1 / 2 }).2 = 0 ∧
      (updateNode 800 600 (fun _ => 1 / 2) 0
          { x := 3999 / 5, y := 2, size := 1, speedX := 1 / 5, speedY := 0,
            opacity := 1 / 2 }).1.speedX = 1 / 5 ∧
      (updateNode 800 600 (fun _ => 1 / 2) 0
            { x := 3999 / 5, y := 2, size := 1, speedX := 1 / 5, speedY := 0,
              opacity := 1 / 2 }).1 ≠
        resetNode 800 600 (fun _ => 1 / 2) 0 := by
  refine ⟨?_, ?_, ?_, ?_⟩ <;> norm_num [updateNode, outOfBox, resetNode]

/-- C2: a connecting line is drawn exactly when the Euclidean distance
between the two compared positions is strictly below 150, i.e. when the
squared distance is below `150 * 150`; in particular at squared distance
exactly `150 * 150` (distance exactly 150) no line is drawn. -/
theorem nebula_line_iff_dist_lt (p q : ℚ × ℚ) :
    (nebulaLineTest p q ↔ sqDist p q < 150 * 150) ∧
      (sqDist p q = 150 * 150 → ¬nebulaLineTest p q) := by
  have key : nebulaLineTest p q ↔ sqDist p q < 150 * 150 := by
    rw [nebulaLineTest, Real.sqrt_lt' (by norm_num : (0 : ℝ) < 150),
      show ((150 : ℝ) ^ 2) = ((150 * 150 : ℚ) : ℝ) by norm_num, Rat.cast_lt]
  refine ⟨key, fun hEq => ?_⟩
  rw [key, hEq]
  simp

/-- Witness for `nebula_line_iff_dist_lt`: two points at distance exactly
150 are not connected. -/
theorem nebula_line_iff_dist_lt_witness :
    ¬nebulaLineTest (0, 0) (150, 0) :=
  (nebula_line_iff_dist_lt (0, 0) (150, 0)).2 (by norm_num [sqDist])

/-- C8: the globe animator's optimized pair test — quick rejection on
`|dx| > radius*0.6` followed by the squared comparison
`dx²+dy²+dz² < radius²*0.3` — accepts exactly the pairs the unoptimized
Euclidean comparison `sqrt(dx²+dy²+dz²) < sqrt(radius²*0.3)` accepts. -/
theorem globe_connect_equiv (radius dx dy dz : ℚ) (hr : 0 ≤ radius) :
    globeConnects radius dx dy dz ↔ globeEuclidConnects radius dx dy dz := by
  have hA : (0 : ℝ) ≤ (dx : ℝ) * (dx : ℝ) + (dy : ℝ) * (dy : ℝ) + (dz : ℝ) * (dz : ℝ) :=
    add_nonneg (add_nonneg (mul_self_nonneg _) (mul_self_nonneg _)) (mul_self_nonneg _)
  have hsq : globeEuclidConnects radius dx dy dz ↔ globeSqTest radius dx dy dz := by
    rw [globeEuclidConnects, Real.sqrt_lt_sqrt_iff hA, globeSqTest,
      show ((3 : ℝ) / 10) = ((3 / 10 : ℚ) : ℝ) by norm_num]
    norm_cast
  have hskip : globeSqTest radius dx dy dz → ¬globeSkip radius dx := by
    intro ht hs
    rw [globeSkip] at hs
    rw [globeSqTest] at ht
    have h2 : radius * (3 / 5) * (radius * (3 / 5)) < |dx| * |dx| :=
      mul_self_lt_mul_self (by positivity) hs
    rw [abs_mul_abs_self] at h2
    nlinarith [mul_self_nonneg dy, mul_self_nonneg dz, mul_self_nonneg radius]
  constructor
  · rintro ⟨-, ht⟩
    exact hsq.mpr ht
  · intro hconn
    exact ⟨hskip (hsq.mp hconn), hsq.mp hconn⟩

/-- Witness for `globe_connect_equiv`: with `radius = 10` and offsets
`(1, 1, 1)` the optimized test accepts, hence so does the Euclidean one. -/
theorem globe_connect_equiv_witness :
    globeEuclidConnects 10 1 1 1 :=
  (globe_connect_equiv 10 1 1 1 (by norm_num)).mp
    ⟨by norm_num [globeSkip], by norm_num [globeSqTest]⟩

/-- Membership in the nested-loop pair list: exactly the pairs `i < j < n`. -/
lemma mem_framePairs {n i j : ℕ} : (i, j) ∈ framePairs n ↔ i < j ∧ j < n := by
  rw [framePairs]
  simp only [List.mem_flatMap, List.mem_map, List.mem_range, List.mem_range']
  constructor
  · rintro ⟨a, ha, b, ⟨t, ht, rfl⟩, heq⟩
    obtain ⟨rfl, rfl⟩ := Prod.mk.injEq .. ▸ heq
    omega
  · rintro ⟨hij, hjn⟩
    exact ⟨i, by omega, j, ⟨j - (i + 1), by omega, by omega⟩, rfl⟩

/-- The nested-loop pair list has no duplicates. -/
lemma framePairs_nodup (n : ℕ) : (framePairs n).Nodup := by
  rw [framePairs, List.nodup_flatMap]
  constructor
  · intro i _
    exact (List.nodup_range' _ _).map fun a b hab => by simpa using hab
  · refine (List.pairwise_lt_range n).imp ?_
    intro a b hab x hxa hxb
    obtain ⟨ja, -, hja⟩ := List.mem_map.mp hxa
    obtain ⟨jb, -, hjb⟩ := List.mem_map.mp hxb
    have hfst : a = b := by simpa using congrArg Prod.fst (hja.trans hjb.symm)
    exact absurd hfst hab.ne

/-- C3: each rendered frame visits each unordered particle pair exactly
once, as the index pairs `i < j`: every such pair occurs exactly once in the
loop's visit list, and no other pair occurs at all. -/
theorem framePairs_count (n i j : ℕ) :
    @List.count (ℕ × ℕ) instBEqOfDecidableEq (i, j) (framePairs n) =
      if i < j ∧ j < n then 1 else 0 := by
  by_cases hc : i < j ∧ j < n
  · rw [if_pos hc]
    exact List.count_eq_one_of_mem (framePairs_nodup n) (mem_framePairs.mpr hc)
  · rw [if_neg hc]
    exact @List.count_eq_zero_of_not_mem (ℕ × ℕ) instBEqOfDecidableEq instLawfulBEq
      (i, j) (framePairs n) fun hmem => hc (mem_framePairs.mp hmem)

/-- Pointwise-equal random streams make `reset` agree. -/
lemma resetNode_congr {r1 r2 : ℕ → ℚ} (H : ∀ i, r1 i = r2 i) (w h : ℚ) (k : ℕ) :
    resetNode w h r1 k = resetNode w h r2 k := by
  simp [resetNode, H]

/-- Pointwise-equal random streams make `update` agree. -/
lemma updateNode_congr {r1 r2 : ℕ → ℚ} (H : ∀ i, r1 i = r2 i) (w h : ℚ)
    (k : ℕ) (n : Node) :
    updateNode w h r1 k n = updateNode w h r2 k n := by
  rw [updateNode, updateNode, resetNode_congr H]

/-- Pointwise-equal random streams make a whole tick agree. -/
lemma tickNodes_congr {r1 r2 : ℕ → ℚ} (H : ∀ i, r1 i = r2 i) (w h : ℚ) :
    ∀ (ns : List Node) (k : ℕ), tickNodes w h r1 ns k = tickNodes w h r2 ns k
  | [], _ => rfl
  | n :: ns, k => by
    simp only [tickNodes]
    rw [updateNode_congr H, tickNodes_congr H w h ns]

/-- Pointwise-equal random streams make any number of ticks agree. -/
lemma runTicks_congr {r1 r2 : ℕ → ℚ} (H : ∀ i, r1 i = r2 i) (w h : ℚ) :
    ∀ (m : ℕ) (s : List Node × ℕ), runTicks w h r1 m s = runTicks w h r2 m s
  | 0, _ => rfl
  | m + 1, s => by
    simp only [runTicks]
    rw [tickNodes_congr H, runTicks_congr H w h m]

/-- Pointwise-equal random streams make initialization agree. -/
lemma initNodes_congr {r1 r2 : ℕ → ℚ} (H : ∀ i, r1 i = r2 i) (w h : ℚ) (k : ℕ) :
    initNodes w h r1 k = initNodes w h r2 k := by
  rw [initNodes, initNodes]
  exact List.map_congr_left fun i _ => resetNode_congr H w h _

/-- C7: with the random source injected, the animation is deterministic:
two runs fed pointwise-identical random streams produce identical particle
lists (all positions, velocities, radii and opacities) after initialization
and after every number of ticks, from any common starting state. -/
theorem tick_deterministic (w h : ℚ) (r1 r2 : ℕ → ℚ) (H : ∀ i, r1 i = r2 i) :
    (∀ k, initNodes w h r1 k = initNodes w h r2 k) ∧
      ∀ (m : ℕ) (s : List Node × ℕ), runTicks w h r1 m s = runTicks w h r2 m s :=
  ⟨fun k => initNodes_congr H w h k, fun m s => runTicks_congr H w h m s⟩

/-- Witness for `tick_deterministic`: two syntactically different but
pointwise-equal streams give equal five-tick runs on 800 × 600 from the
freshly initialized state. -/
theorem tick_deterministic_witness :
    runTicks 800 600 (fun _ => 1 / 3) 5 (initNodes 800 600 (fun _ => 1 / 3) 0, 180) =
      runTicks 800 600 (fun _ => 1 / 3 + 0) 5 (initNodes 800 600 (fun _ => 1 / 3) 0, 180) :=
  (tick_deterministic 800 600 (fun _ => 1 / 3) (fun _ => 1 / 3 + 0)
      (fun _ => by norm_num)).2 5 (initNodes 800 600 (fun _ => 1 / 3) 0, 180)

end Portfolio
